import Mathlib

/-!
Verification development for the SAIL lead-generation pipeline.

The definitions below are a shallow embedding of the Python sources:
`src/modules/lead-generation/search_engine.py`,
`src/modules/lead-generation/email_enrichment.py`, and
`src/integrations/bigin/client.py`.  Pure computations (email filtering,
scoring, field mapping, candidate ordering) are translated function by
function; every HTTP request, HTML scrape, or DNS lookup is an external
effect and is represented by an oracle input recording what the outside
world returned at that call site (a transport failure, or a response with
the fields the code reads).  Leads are Python dicts whose full key set is
fixed by the pipeline; they are modelled as a structure in which a missing
or falsy string key is the empty string, a missing numeric key is `0`, and
a missing boolean key is `false` — exactly the values Python's `dict.get`
defaults produce at every use site in these files.
-/

namespace SailApp

/-! ## String helpers mirroring Python primitives

These are written as structural (or fuel-based structural) recursions over
character lists so that concrete instances evaluate inside the kernel. -/

/-- Does `p` occur as a contiguous run inside `s`?  (Python `p in s`; the
empty pattern occurs everywhere, as in Python.) -/
def subFind (p : List Char) : List Char → Bool
  | [] => p.isEmpty
  | c :: rest => p.isPrefixOf (c :: rest) || subFind p rest

/-- Python's `p in s` substring test. -/
def pyIn (p s : String) : Bool := subFind p.data s.data

/-- Splitting worker for `pySplit`, with fuel bounding the scan. -/
def splitGo (sep : List Char) : ℕ → List Char → List Char → List (List Char)
  | 0, s, acc => [acc.reverse ++ s]
  | fuel + 1, s, acc =>
    match s with
    | [] => [acc.reverse]
    | c :: rest =>
      if sep.isPrefixOf s then acc.reverse :: splitGo sep fuel (s.drop sep.length) []
      else splitGo sep fuel rest (c :: acc)

/-- Python's `s.split(sep)` for a nonempty separator (`[s]` when the
separator is empty, as in `String.splitOn`). -/
def pySplit (sep s : String) : List String :=
  if sep.isEmpty then [s]
  else (splitGo sep.data (s.length + 1) s.data []).map List.asString

/-- Replacement worker for `pyReplace`, with fuel bounding the scan. -/
def replaceGo (old new : List Char) : ℕ → List Char → List Char
  | 0, s => s
  | fuel + 1, s =>
    match s with
    | [] => []
    | c :: rest =>
      if old.isPrefixOf s then new ++ replaceGo old new fuel (s.drop old.length)
      else c :: replaceGo old new fuel rest

/-- Python's `s.replace(old, new)` for a nonempty `old`: every
non-overlapping occurrence, scanned left to right. -/
def pyReplace (s old new : String) : String :=
  if old.isEmpty then s
  else (replaceGo old.data new.data (s.length + 1) s.data).asString

/-- Python's `s.lower()` (ASCII case folding, as in all uses here). -/
def pyLower (s : String) : String := (s.data.map Char.toLower).asString

/-- Python's `s.strip()`: drop whitespace from both ends. -/
def pyStrip (s : String) : String :=
  (((s.data.dropWhile Char.isWhitespace).reverse.dropWhile Char.isWhitespace).reverse).asString

/-- Python's `s.startswith(p)`. -/
def pyStarts (p s : String) : Bool := p.data.isPrefixOf s.data

/-- The first `n` characters of `s` (Python slicing `s[:n]`). -/
def pyTake (s : String) (n : ℕ) : String := (s.data.take n).asString

/-- Whitespace splitting worker. -/
def splitWsGo : List Char → List Char → List (List Char)
  | [], acc => [acc.reverse]
  | c :: rest, acc =>
    if c.isWhitespace then acc.reverse :: splitWsGo rest []
    else splitWsGo rest (c :: acc)

/-- Python's `s.split()` with no separator: split on whitespace, dropping
empty pieces. -/
def pySplitWs (s : String) : List String :=
  ((splitWsGo s.data []).map List.asString).filter (fun t => t ≠ "")

/-- Python's `int()` applied to a rational: truncation toward zero. -/
def pyInt (q : ℚ) : ℤ :=
  if 0 ≤ q then ⌊q⌋ else ⌈q⌉

/-- `urlparse(url).netloc` for the URLs this code builds: the text after the
first `"://"` up to the first `/`, `?` or `#`. -/
def urlNetloc (url : String) : String :=
  match pySplit "://" url with
  | [] => ""
  | [_] => ""
  | _ :: rest =>
    ((String.intercalate "://" rest).data.takeWhile
      (fun c => !(c == '/' || c == '?' || c == '#'))).asString

/-- `website if "://" in website else f"https://{website}"`, the guard used by
`_filter_emails`, `_hunter_search` and `_infer_email_pattern`. -/
def withScheme (website : String) : String :=
  if pyIn "://" website then website else "https://" ++ website

/-- Domain extraction shared by `_hunter_search`, `_infer_email_pattern` and
`_filter_emails`: parse the (schemed) URL and drop `"www."` (Python
`str.replace` removes every occurrence). -/
def extractDomain (website : String) : String :=
  pyReplace (urlNetloc (withScheme website)) "www." ""

/-! ## The lead record -/

/-- A lead dict.  String keys read through `lead.get(k, "")`/truthiness tests
are empty when absent; `rating` is `0` when absent or falsy; the `_email_pattern`
internal key is `email_pattern` here.  `rating_repr` and `score_repr` stand for
Python's textual rendering of the rating and lead-score values, used only
inside the CRM description string. -/
structure Lead where
  name : String := ""
  address : String := ""
  phone : String := ""
  website : String := ""
  place_id : String := ""
  category : String := ""
  rating : ℚ := 0
  total_ratings : ℕ := 0
  business_status : String := ""
  email : String := ""
  contact_name : String := ""
  contact_title : String := ""
  email_confidence : String := ""
  email_pattern : String := ""
  lead_score : ℤ := 0
  rating_repr : String := ""
  score_repr : String := ""
  enriched_google : Bool := false
  enriched_hunter : Bool := false
  enriched_apollo : Bool := false
  enriched_pattern : Bool := false
  enriched_website_scrape : Bool := false
deriving DecidableEq

/-! ## search_engine.py — lead construction, filtering, scoring -/

/-- A JSON-ish value stored in the lead dict built by `_text_search`. -/
inductive PVal
  | s (v : String)
  | b (v : Bool)
  | q (v : ℚ)
  | n (v : ℕ)
deriving DecidableEq

/-- The fields `_text_search` reads off one Google Places result.  `rating`,
`lat` and `lng` keep whatever JSON value the API returned (the code defaults
them to `""` when missing), so they are `PVal`s. -/
structure Place where
  name : String := ""
  formatted_address : String := ""
  place_id : String := ""
  business_status : String := ""
  rating : PVal := .s ""
  user_ratings_total : ℕ := 0
  lat : PVal := .s ""
  lng : PVal := .s ""
deriving DecidableEq

/-- The dict literal built for each new place in `_text_search`
(search_engine.py lines 147–167), as an ordered key/value list. -/
def textSearchLead (place : Place) (category : String) : List (String × PVal) :=
  [ ("name", .s place.name),
    ("address", .s place.formatted_address),
    ("phone", .s ""),
    ("website", .s ""),
    ("place_id", .s place.place_id),
    ("category", .s category),
    ("rating", place.rating),
    ("total_ratings", .n place.user_ratings_total),
    ("lat", place.lat),
    ("lng", place.lng),
    ("business_status", .s place.business_status),
    ("enriched_google", .b true),
    ("enriched_hunter", .b false),
    ("enriched_apollo", .b false),
    ("enriched_pattern", .b false),
    ("email", .s ""),
    ("contact_name", .s ""),
    ("contact_title", .s "") ]

/-- `filter_active_businesses`: drop permanently closed leads and leads whose
(truthy) rating is below 2.0 when they have at least 5 ratings. -/
def filter_active_businesses : List Lead → List Lead
  | [] => []
  | lead :: rest =>
    if lead.business_status = "CLOSED_PERMANENTLY" then
      filter_active_businesses rest
    else if lead.rating ≠ 0 ∧ lead.total_ratings ≥ 5 ∧ lead.rating < 2 then
      filter_active_businesses rest
    else
      lead :: filter_active_businesses rest

/-- The category weight table of `score_leads`. -/
def category_scores : List (String × ℤ) :=
  [("dance_studio", 20), ("daycare", 15), ("school", 12), ("sports", 10)]

/-- The score computed for one lead by `score_leads`. -/
def scoreLead (lead : Lead) : ℤ :=
  let s1 : ℤ := if lead.website ≠ "" then 20 else 0
  let s2 := if lead.phone ≠ "" then s1 + 10 else s1
  let s3 := if lead.rating ≠ 0 then s2 + min 15 (pyInt (lead.rating * 3)) else s2
  let s4 :=
    if lead.total_ratings ≥ 100 then s3 + 15
    else if lead.total_ratings ≥ 50 then s3 + 12
    else if lead.total_ratings ≥ 20 then s3 + 8
    else if lead.total_ratings ≥ 5 then s3 + 4
    else s3
  let s5 := s4 + ((category_scores.lookup lead.category).getD 5)
  if lead.business_status = "OPERATIONAL" ∨ lead.business_status = "" then s5 + 20 else s5

/-- `score_leads`: store each score and sort descending (Python's stable
`list.sort(key=..., reverse=True)`). -/
def score_leads (leads : List Lead) : List Lead :=
  (leads.map fun l => { l with lead_score := scoreLead l }).mergeSort
    (fun a b => b.lead_score ≤ a.lead_score)

/-! ## email_enrichment.py — the enrichment pipeline

Each strategy's network/HTML/DNS interaction is an oracle input; the logic
downstream of those calls is translated line by line. -/

/-- The ignore list of `_filter_emails`. -/
def ignore_patterns : List String :=
  [ "wix.com", "wordpress.com", "squarespace.com", "godaddy.com",
    "example.com", "email.com", "sentry.io", "googleapis.com" ]

/-- The generic local parts recognised by `_filter_emails`. -/
def generic_locals : List String :=
  ["info", "contact", "hello", "admin", "office", "support"]

/-- The free consumer-mail providers recognised by `_filter_emails`. -/
def free_providers : List String :=
  ["gmail.com", "yahoo.com", "hotmail.com", "outlook.com", "aol.com"]

/-- Python `email.split("@")[-1]`. -/
def emailDomain (e : String) : String := (pySplit "@" e).getLastD ""

/-- Python `email.split("@")[0]`. -/
def emailLocal (e : String) : String := (pySplit "@" e).headD ""

/-- The three accumulator lists of the `_filter_emails` loop, in iteration
order: business, generic, personal. -/
def filterEmailsBuckets (bd : String) : List String → List String × List String × List String
  | [] => ([], [], [])
  | e0 :: rest =>
    let e := pyStrip (pyLower e0)
    let (bs, gs, ps) := filterEmailsBuckets bd rest
    if ignore_patterns.any (fun p => pyIn p e) then (bs, gs, ps)
    else if e.length < 5 then (bs, gs, ps)
    else if emailDomain e = bd ∨ emailDomain e = "www." ++ bd then
      if generic_locals.contains (emailLocal e) then (bs, e :: gs, ps)
      else (e :: bs, gs, ps)
    else if free_providers.contains (emailDomain e) then (bs, gs, e :: ps)
    else (bs, gs, ps)

/-- `_filter_emails(emails, website)`: categorise candidates and return them
in priority order business > generic > personal.  `emails` is the scraped
candidate set in its (unspecified) Python iteration order. -/
def filter_emails (emails : List String) (website : String) : List String :=
  if emails.isEmpty then []
  else
    let bd := extractDomain website
    let (bs, gs, ps) := filterEmailsBuckets bd emails
    bs ++ gs ++ ps

/-- What the website fetches of `_scrape_website` collected before the final
selection: the email candidate set (in iteration order) and the contact-name
list, both produced by the HTTP/HTML extraction loop. -/
structure ScrapeFindings where
  emails : List String := []
  names : List String := []

/-- The scheme guard at the top of `_scrape_website` (it uses `startswith`,
unlike the other helpers). -/
def scrapeSchemed (website : String) : String :=
  if pyStarts "http://" website || pyStarts "https://" website then website
  else "https://" ++ website

/-- `_scrape_website`: pick the best filtered email and the first contact
name out of the collected findings (email_enrichment.py lines 151–157 and
225–230; the fetch loop itself is the oracle `f`). -/
def scrape_website (f : ScrapeFindings) (lead : Lead) : Lead :=
  if lead.website = "" then lead
  else
    let w := scrapeSchemed lead.website
    let good := filter_emails f.emails w
    let l1 := if good.isEmpty then lead else { lead with email := good.headD "" }
    if f.names.isEmpty then l1 else { l1 with contact_name := f.names.headD "" }

/-- One email record in a Hunter.io domain-search response. -/
structure HunterEmail where
  value : String := ""
  first_name : String := ""
  last_name : String := ""
  position : String := ""
  confidence : ℤ := 0
deriving DecidableEq

/-- Outcome of the Hunter.io HTTP request: the transport layer raised before
a response arrived, or a response with an HTTP status (`ok` = 2xx), its email
records, and the optional organisation pattern (`""` when absent). -/
inductive HunterResp
  | transport
  | http (ok : Bool) (emails : List HunterEmail) (pattern : String)
deriving DecidableEq

/-- Python `max(emails, key=confidence)` starting from `e`: the first record
with maximal confidence wins. -/
def maxByConfidence (e : HunterEmail) (rest : List HunterEmail) : HunterEmail :=
  rest.foldl (fun b x => if b.confidence < x.confidence then x else b) e

/-- `_hunter_search`: returns the updated lead, the increment applied to
`_hunter_calls`, and the number of HTTP requests issued.  The counter is
bumped only after `requests.get` returns, so a transport failure issues a
request without incrementing it. -/
def hunter_search (key : String) (resp : HunterResp) (lead : Lead) : Lead × ℕ × ℕ :=
  if lead.website = "" ∨ key = "" then (lead, 0, 0)
  else if extractDomain lead.website = "" then (lead, 0, 0)
  else
    match resp with
    | .transport => (lead, 0, 1)
    | .http ok emails pat =>
      if ok = false then (lead, 1, 1)
      else
        let l1 :=
          match emails with
          | [] => lead
          | e :: rest =>
            let best := maxByConfidence e rest
            let a := { lead with email := best.value }
            let b :=
              if best.first_name ≠ "" ∨ best.last_name ≠ "" then
                { a with contact_name := pyStrip (best.first_name ++ " " ++ best.last_name) }
              else a
            if best.position ≠ "" then { b with contact_title := best.position } else b
        let l2 := if pat ≠ "" then { l1 with email_pattern := pat } else l1
        (l2, 1, 1)

/-- An organisation record in an Apollo.io company-search response. -/
structure ApolloOrg where
  id : String := ""
  website_url : String := ""
  phone : String := ""
deriving DecidableEq

/-- A person record in an Apollo.io people-search response. -/
structure ApolloPerson where
  email : String := ""
  first_name : String := ""
  last_name : String := ""
  title : String := ""
deriving DecidableEq

/-- Outcome of one Apollo HTTP request: transport failure before a response,
or a response with an HTTP status and its items. -/
inductive ApiResp (α : Type)
  | transport
  | http (ok : Bool) (items : List α)
deriving DecidableEq

/-- `_apollo_people_search`: lead update, `_apollo_calls` increment, and
requests issued. -/
def apollo_people_search (presp : ApiResp ApolloPerson) (lead : Lead) : Lead × ℕ × ℕ :=
  match presp with
  | .transport => (lead, 0, 1)
  | .http ok people =>
    if ok = false then (lead, 1, 1)
    else
      match people with
      | [] => (lead, 1, 1)
      | person :: _ =>
        let l1 := if person.email ≠ "" then { lead with email := person.email } else lead
        let parts := (if person.first_name ≠ "" then [person.first_name] else []) ++
          (if person.last_name ≠ "" then [person.last_name] else [])
        let full := pyStrip (String.intercalate " " parts)
        let l2 := if full ≠ "" then { l1 with contact_name := full } else l1
        let l3 := if person.title ≠ "" then { l2 with contact_title := person.title } else l2
        (l3, 1, 1)

/-- `_apollo_search`: organisation search, optional backfill of website and
phone, then the people search when an organisation id is present.  Results:
lead update, `_apollo_calls` increment, requests issued. -/
def apollo_search (key : String) (oresp : ApiResp ApolloOrg)
    (presp : ApiResp ApolloPerson) (lead : Lead) : Lead × ℕ × ℕ :=
  if key = "" then (lead, 0, 0)
  else if lead.name = "" then (lead, 0, 0)
  else
    match oresp with
    | .transport => (lead, 0, 1)
    | .http ok orgs =>
      if ok = false then (lead, 1, 1)
      else
        match orgs with
        | [] => (lead, 1, 1)
        | org :: _ =>
          let l1 :=
            if lead.website = "" ∧ org.website_url ≠ "" then
              { lead with website := org.website_url }
            else lead
          let l2 := if l1.phone = "" ∧ org.phone ≠ "" then { l1 with phone := org.phone } else l1
          if org.id ≠ "" then
            let r := apollo_people_search presp l2
            (r.1, 1 + r.2.1, 1 + r.2.2)
          else (l2, 1, 1)

/-- `_domain_has_mx`: `none` models the `nslookup` subprocess failing to run
(assume receivable); `some out` is the captured stdout. -/
def domain_has_mx (nsOut : Option String) : Bool :=
  match nsOut with
  | none => true
  | some out => pyIn "mail exchanger" (pyLower out) || pyIn "mx" (pyLower out)

/-- `_infer_email_pattern`: guard on website/domain/MX, build the ordered
candidate list, accept its first element and mark the confidence. -/
def infer_email_pattern (nsOut : Option String) (lead : Lead) : Lead :=
  if lead.website = "" then lead
  else
    let domain := extractDomain lead.website
    if domain = "" then lead
    else if domain_has_mx nsOut = false then lead
    else
      let parts := pySplitWs (pyLower lead.contact_name)
      let personalized :=
        if lead.contact_name ≠ "" ∧ parts.length ≥ 2 then
          let first := parts.headD ""
          let last := parts.getLastD ""
          [ first ++ "@" ++ domain,
            first ++ "." ++ last ++ "@" ++ domain,
            pyTake first 1 ++ last ++ "@" ++ domain,
            first ++ pyTake last 1 ++ "@" ++ domain,
            first ++ "_" ++ last ++ "@" ++ domain ]
        else []
      let candidates := personalized ++
        [ "info@" ++ domain, "contact@" ++ domain, "hello@" ++ domain,
          "office@" ++ domain, "studio@" ++ domain, "admin@" ++ domain ]
      { lead with email := candidates.headD "", email_confidence := "inferred" }

/-! ### The per-lead cascade of `enrich_leads` -/

/-- The four enrichment strategies, in pipeline order. -/
inductive Strat
  | scrape
  | hunter
  | apollo
  | pattern
deriving DecidableEq

/-- The canonical strategy order of the cascade. -/
def stratOrder : List Strat := [.scrape, .hunter, .apollo, .pattern]

/-- The provenance flag a strategy records on the lead. -/
def stratFlag : Strat → Lead → Bool
  | .scrape, l => l.enriched_website_scrape
  | .hunter, l => l.enriched_hunter
  | .apollo, l => l.enriched_apollo
  | .pattern, l => l.enriched_pattern

/-- The two session quota counters of `EmailEnrichmentPipeline`. -/
structure PipeState where
  hunter_calls : ℕ := 0
  apollo_calls : ℕ := 0
deriving DecidableEq

/-- The oracle for everything the outside world answers while one lead is
enriched. -/
structure LeadEnv where
  scrape : ScrapeFindings := {}
  hunter : HunterResp := .transport
  apolloOrg : ApiResp ApolloOrg := .transport
  apolloPeople : ApiResp ApolloPerson := .transport
  mx : Option String := none

/-- The pipeline configuration: the two optional API keys (`""` = absent). -/
structure Config where
  hunter_api_key : String := ""
  apollo_api_key : String := ""

/-- Execution state of the loop body of `enrich_leads` for one lead: current
lead, counters, the trace of attempted strategies (each paired with whether
the lead's email was non-empty right after the attempt), the number of
Hunter/Apollo HTTP requests issued, and whether the body has hit a
`continue` (email present after an attempt). -/
structure Flow where
  lead : Lead
  st : PipeState
  trace : List (Strat × Bool) := []
  hwire : ℕ := 0
  awire : ℕ := 0
  done : Bool := false

/-- Record one attempted strategy in the flow. -/
def attempt (s : Strat) (l : Lead) (st : PipeState) (dh da : ℕ) (f : Flow) : Flow :=
  { lead := l, st := st, trace := f.trace ++ [(s, l.email != "")],
    hwire := f.hwire + dh, awire := f.awire + da, done := l.email != "" }

/-- Step 1 of the loop body: website scraping. -/
def step1 (sc : ScrapeFindings) (f : Flow) : Flow :=
  if f.done then f
  else if f.lead.website ≠ "" ∧ f.lead.enriched_website_scrape = false then
    let l0 := scrape_website sc f.lead
    attempt .scrape { l0 with enriched_website_scrape := true } f.st 0 0 f
  else f

/-- Step 2: Hunter.io, guarded by key, flag, website, and the 25-call quota. -/
def step2 (key : String) (hr : HunterResp) (f : Flow) : Flow :=
  if f.done then f
  else if key ≠ "" ∧ f.lead.enriched_hunter = false ∧ f.lead.website ≠ "" ∧
      f.st.hunter_calls < 25 then
    let r := hunter_search key hr f.lead
    attempt .hunter { r.1 with enriched_hunter := true }
      { f.st with hunter_calls := f.st.hunter_calls + r.2.1 } r.2.2 0 f
  else f

/-- Step 3: Apollo.io, guarded by key and flag. -/
def step3 (key : String) (orsp : ApiResp ApolloOrg) (prsp : ApiResp ApolloPerson)
    (f : Flow) : Flow :=
  if f.done then f
  else if key ≠ "" ∧ f.lead.enriched_apollo = false then
    let r := apollo_search key orsp prsp f.lead
    attempt .apollo { r.1 with enriched_apollo := true }
      { f.st with apollo_calls := f.st.apollo_calls + r.2.1 } 0 r.2.2 f
  else f

/-- Step 4: pattern inference, guarded by website and flag. -/
def step4 (nsOut : Option String) (f : Flow) : Flow :=
  if f.done then f
  else if f.lead.website ≠ "" ∧ f.lead.enriched_pattern = false then
    attempt .pattern { infer_email_pattern nsOut f.lead with enriched_pattern := true }
      f.st 0 0 f
  else f

/-- The loop body of `enrich_leads` for one lead (email_enrichment.py lines
77–130), including the skip of already-enriched leads. -/
def enrichLead (cfg : Config) (env : LeadEnv) (skip : Bool) (st : PipeState)
    (lead : Lead) : Flow :=
  if skip ∧ lead.email ≠ "" then { lead := lead, st := st }
  else
    step4 env.mx
      (step3 cfg.apollo_api_key env.apolloOrg env.apolloPeople
        (step2 cfg.hunter_api_key env.hunter
          (step1 env.scrape { lead := lead, st := st })))

/-- `enrich_leads`: run the loop body over the list, threading the counters;
`envs i` is the oracle for the i-th lead. -/
def enrich_leads (cfg : Config) (envs : ℕ → LeadEnv) (skip : Bool) :
    ℕ → PipeState → List Lead → List Lead × PipeState
  | _, st, [] => ([], st)
  | i, st, l :: rest =>
    let f := enrichLead cfg (envs i) skip st l
    let r := enrich_leads cfg envs skip (i + 1) f.st rest
    (f.lead :: r.1, r.2)

/-! ## integrations/bigin/client.py — CRM upsert -/

/-- The in-memory duplicate index: normalized company name ↦ record id (the
id is `""` when the create response carried none).  Lookups take the most
recent binding, insertions prepend, matching dict semantics at the two use
sites. -/
def CrmIndex := List (String × String)

/-- Normalization used for the dedup key: `company.strip().lower()`. -/
def normName (s : String) : String := pyLower (pyStrip s)

/-- `check_duplicate` against an already-built index, with Python's
truthiness on the stored id (`None`/empty is not a hit). -/
def check_duplicate (idx : CrmIndex) (lead : Lead) : String :=
  (List.lookup (normName lead.name) idx).getD ""

/-- The Bigin Contact payload built by `create_contact` (client.py lines
159–203). -/
structure Payload where
  first_name : String
  last_name : String
  company_name : String
  phone : String
  email : String
  website : String
  mailing_street : String
  title : String
  description : String
  lead_source : String
  enriched_google : Bool
  enriched_hunter : Bool
  enriched_apollo : Bool
  enriched_pattern : Bool
  enriched_website_scrape : Bool
deriving DecidableEq

/-- Field mapping of `create_contact`: contact-name split and payload
assembly.  `rating_repr`/`score_repr` stand for Python's rendering of the
rating and lead-score values inside the f-string. -/
def mkPayload (lead : Lead) : Payload :=
  let pair :=
    if lead.contact_name ≠ "" then
      let parts := pySplitWs lead.contact_name
      if parts.length ≥ 2 then (parts.headD "", String.intercalate " " parts.tail)
      else ("", lead.contact_name)
    else ("", lead.name)
  { first_name := pair.1
    last_name := pair.2
    company_name := lead.name
    phone := lead.phone
    email := lead.email
    website := lead.website
    mailing_street := lead.address
    title := lead.contact_title
    description :=
      "Category: " ++ lead.category ++ " | Lead Score: " ++ lead.score_repr ++
        " | Google Rating: " ++ lead.rating_repr ++ " (" ++
        toString lead.total_ratings ++ " reviews) | Source: SAIL Lead Generation"
    lead_source := "SAIL Lead Gen"
    enriched_google := lead.enriched_google
    enriched_hunter := lead.enriched_hunter
    enriched_apollo := lead.enriched_apollo
    enriched_pattern := lead.enriched_pattern
    enriched_website_scrape := lead.enriched_website_scrape }

/-- Outcome of the create POST: `fail` covers both a transport error and a
non-2xx status (both surface as a caught `RequestException` with a message);
`api` is a parsed 2xx body with its success/failure code, record id (`""`
when absent) and message. -/
inductive CreateResp
  | fail (msg : String)
  | api (code : String) (id : String) (msg : String)
deriving DecidableEq

/-- The result dict returned by `create_contact`. -/
inductive CreateOutcome
  | duplicate (name existing_id : String)
  | dry (name : String) (payload : Payload)
  | created (name record_id : String)
  | err (name msg : String)
deriving DecidableEq

/-- `create_contact`: duplicate check, payload build, dry-run short-circuit,
live POST with cache update on success.  Returns the outcome, the updated
index, and the number of POSTs issued. -/
def create_contact (idx : CrmIndex) (resp : CreateResp) (dry_run : Bool)
    (lead : Lead) : CreateOutcome × CrmIndex × ℕ :=
  let existing := check_duplicate idx lead
  if existing ≠ "" then (.duplicate lead.name existing, idx, 0)
  else if dry_run then (.dry lead.name (mkPayload lead), idx, 0)
  else
    match resp with
    | .fail msg => (.err lead.name msg, idx, 1)
    | .api code id msg =>
      if code = "SUCCESS" then
        (.created lead.name id, (normName lead.name, id) :: idx, 1)
      else (.err lead.name msg, idx, 1)

/-- The outcome buckets aggregated by `bulk_create_contacts`. -/
structure BulkResults where
  created : List CreateOutcome := []
  duplicates : List CreateOutcome := []
  errors : List CreateOutcome := []
  dry_runs : List CreateOutcome := []
  total : ℕ := 0
deriving DecidableEq

/-- Append one outcome to its bucket. -/
def bucketize (r : BulkResults) : CreateOutcome → BulkResults
  | .created n i => { r with created := r.created ++ [.created n i] }
  | .duplicate n i => { r with duplicates := r.duplicates ++ [.duplicate n i] }
  | .err n m => { r with errors := r.errors ++ [.err n m] }
  | .dry n p => { r with dry_runs := r.dry_runs ++ [.dry n p] }

/-- The loop of `bulk_create_contacts`; `resps i` is the POST oracle for the
i-th lead. -/
def bulkLoop (resps : ℕ → CreateResp) (dry_run : Bool) :
    ℕ → BulkResults → CrmIndex → List Lead → BulkResults × CrmIndex
  | _, acc, idx, [] => (acc, idx)
  | i, acc, idx, lead :: rest =>
    let r := create_contact idx (resps i) dry_run lead
    bulkLoop resps dry_run (i + 1) (bucketize acc r.1) r.2.1 rest

/-- `bulk_create_contacts` over an already-built duplicate index. -/
def bulk_create_contacts (resps : ℕ → CreateResp) (dry_run : Bool)
    (idx : CrmIndex) (leads : List Lead) : BulkResults × CrmIndex :=
  bulkLoop resps dry_run 0 { total := leads.length } idx leads

/-! ## Spec-side definitions

These definitions follow the specification's wording, to be compared with
the source-derived definitions above. -/

/-- Spec wording of the lead filter: keep a lead unless it is flagged
permanently closed, or its (truthy) rating is below the 2.0 floor with at
least 5 ratings. -/
def specKeepLead (l : Lead) : Bool :=
  decide (l.business_status ≠ "CLOSED_PERMANENTLY" ∧
    (l.rating = 0 ∨ l.total_ratings < 5 ∨ 2 ≤ l.rating))

/-- Spec wording of the scorer: six independent additive components. -/
def specScore (l : Lead) : ℤ :=
  (if l.website ≠ "" then 20 else 0) +
  (if l.phone ≠ "" then 10 else 0) +
  min 15 (pyInt (l.rating * 3)) +
  (if l.total_ratings ≥ 100 then 15
   else if l.total_ratings ≥ 50 then 12
   else if l.total_ratings ≥ 20 then 8
   else if l.total_ratings ≥ 5 then 4 else 0) +
  ((category_scores.lookup l.category).getD 5) +
  (if l.business_status = "OPERATIONAL" ∨ l.business_status = "" then 20 else 0)

/-- The normalization `_filter_emails` applies to each candidate. -/
def normEmail (e : String) : String := pyStrip (pyLower e)

/-- A candidate survives the ignore list and the length check. -/
def keptEmail (e : String) : Bool :=
  !(ignore_patterns.any (fun p => pyIn p e)) && !(decide (e.length < 5))

/-- A candidate sits on the business domain (with or without `www.`). -/
def onBusinessDomain (bd e : String) : Bool :=
  decide (emailDomain e = bd ∨ emailDomain e = "www." ++ bd)

/-- Spec bucket (a): business domain, non-generic local part. -/
def rankBusiness (emails : List String) (website : String) : List String :=
  (emails.map normEmail).filter fun e =>
    keptEmail e && onBusinessDomain (extractDomain website) e &&
      !(generic_locals.contains (emailLocal e))

/-- Spec bucket (b): business domain, generic local part. -/
def rankGeneric (emails : List String) (website : String) : List String :=
  (emails.map normEmail).filter fun e =>
    keptEmail e && onBusinessDomain (extractDomain website) e &&
      generic_locals.contains (emailLocal e)

/-- Spec bucket (c): free consumer-mail providers. -/
def rankFree (emails : List String) (website : String) : List String :=
  (emails.map normEmail).filter fun e =>
    keptEmail e && !(onBusinessDomain (extractDomain website) e) &&
      free_providers.contains (emailDomain e)

/-- Invariant of the per-lead cascade: with `avail` the strategies not yet
stepped through, the trace is an in-order selection of the already-passed
strategies, every attempted strategy's flag is set on the current lead and
was unset on the original lead, untouched flags are unchanged, only the last
attempt can have found an email, and `done` mirrors email presence. -/
def FlowInv (orig : Lead) (avail : List Strat) (f : Flow) : Prop :=
  ((f.trace.map Prod.fst) ++ avail).Sublist stratOrder
  ∧ (∀ p ∈ f.trace, stratFlag p.1 f.lead = true)
  ∧ (∀ p ∈ f.trace, stratFlag p.1 orig = false)
  ∧ (∀ s : Strat, s ∉ f.trace.map Prod.fst → stratFlag s f.lead = stratFlag s orig)
  ∧ (∀ p ∈ f.trace.dropLast, p.2 = false)
  ∧ (f.done = false → ∀ p ∈ f.trace, p.2 = false)
  ∧ f.done = (f.lead.email != "")
  ∧ (f.done = true → (f.trace.getLastD (.scrape, false)).2 = true ∧ f.trace ≠ [])

/-! ## Concrete data used by witnesses and counterexamples -/

/-- A low-rated lead with too few reviews to be filtered. -/
def leadLowFew : Lead := { name := "Tiny Studio", rating := 3 / 2, total_ratings := 3 }

/-- A low-rated lead with enough reviews to be filtered. -/
def leadLowMany : Lead := { name := "Struggling Studio", rating := 3 / 2, total_ratings := 10 }

/-- A permanently closed lead with otherwise excellent signals. -/
def leadClosed : Lead :=
  { name := "Gone Dance", business_status := "CLOSED_PERMANENTLY", rating := 5,
    total_ratings := 200, website := "https://gone.test", phone := "1" }

/-- The spec's perfect-score lead. -/
def leadScore100 : Lead :=
  { name := "Star Dance", website := "https://star.test", phone := "(210) 555-0100",
    rating := 5, total_ratings := 150, category := "dance_studio",
    business_status := "OPERATIONAL" }

/-- A lead whose website is `acme.test`, used across enrichment examples. -/
def leadAcme : Lead := { name := "Acme Dance", website := "https://acme.test" }

/-- A concrete place-search result. -/
def placeDance : Place :=
  { name := "Starlight Dance", formatted_address := "1 Main St", place_id := "pid1",
    business_status := "OPERATIONAL", rating := .q 4, user_ratings_total := 12 }

/-- Configuration with only a Hunter key, for the quota counterexample. -/
def cfgHunterOnly : Config := { hunter_api_key := "k" }

/-- Oracle in which the single Hunter call dies in transport and nothing
else answers. -/
def envHunterTransport : LeadEnv :=
  { hunter := .transport, mx := some "connection timed out" }

/-- A lead already scraped, so the Hunter step is the first to run. -/
def leadScrapedAcme : Lead :=
  { name := "Acme Dance", website := "https://acme.test", enriched_website_scrape := true }

/-- Two leads sharing a normalized business name. -/
def leadDupA : Lead := { name := "Starlight Dance", email := "a@starlight.test" }

/-- Second lead with the same normalized name as `leadDupA`. -/
def leadDupB : Lead := { name := "  starlight dance  ", phone := "(210) 555-0101" }

/-- POST oracle that always succeeds with record id `b1`. -/
def respsAlwaysB1 : ℕ → CreateResp := fun _ => .api "SUCCESS" "b1" "ok"

/-! ## Theorems -/

/-- The recursive filter agrees with `List.filter` over the spec predicate. -/
theorem filter_active_eq_filter (leads : List Lead) :
    filter_active_businesses leads = leads.filter specKeepLead := by
  induction leads with
  | nil => rfl
  | cons l rest ih =>
    by_cases h1 : l.business_status = "CLOSED_PERMANENTLY"
    · have hk : specKeepLead l = false := by
        simp only [specKeepLead, decide_eq_false_iff_not]
        intro hcon
        exact hcon.1 h1
      simp [filter_active_businesses, List.filter_cons, hk, h1, ih]
    · by_cases h2 : l.rating ≠ 0 ∧ l.total_ratings ≥ 5 ∧ l.rating < 2
      · have hk : specKeepLead l = false := by
          simp only [specKeepLead, decide_eq_false_iff_not]
          intro hcon
          rcases hcon.2 with h | h | h
          · exact h2.1 h
          · omega
          · exact absurd h (not_le.mpr h2.2.2)
        simp [filter_active_businesses, List.filter_cons, hk, h1, h2, ih]
      · have hk : specKeepLead l = true := by
          simp only [specKeepLead, decide_eq_true_eq]
          refine ⟨h1, ?_⟩
          push_neg at h2
          by_cases hr : l.rating = 0
          · exact Or.inl hr
          · by_cases ht : l.total_ratings ≥ 5
            · exact Or.inr (Or.inr (h2 hr ht))
            · exact Or.inr (Or.inl (by omega))
        simp [filter_active_businesses, List.filter_cons, hk, h1, h2, ih]

/-- C6: the lead filter drops permanently closed leads unconditionally, and
drops low-rated leads only when they have at least five ratings; a rating-1.5
lead with 3 reviews survives, with 10 reviews it does not, and a closed lead
never survives; the result is a subcollection of the input (a fresh list,
the input list being untouched), pointwise equal to the spec's keep
predicate. -/
theorem c6_lead_filter :
    (∀ leads : List Lead, filter_active_businesses leads = leads.filter specKeepLead)
    ∧ (∀ leads : List Lead, (filter_active_businesses leads).Sublist leads)
    ∧ (∀ leads : List Lead,
        (filter_active_businesses leads).all
          (fun l => l.business_status != "CLOSED_PERMANENTLY"))
    ∧ filter_active_businesses [leadLowFew] = [leadLowFew]
    ∧ filter_active_businesses [leadLowMany] = []
    ∧ filter_active_businesses [leadClosed] = [] := by
  refine ⟨filter_active_eq_filter, ?_, ?_, ?_, ?_, ?_⟩
  · intro leads
    rw [filter_active_eq_filter]
    exact List.filter_sublist leads
  · intro leads
    rw [filter_active_eq_filter]
    simp only [List.all_eq_true]
    intro l hl
    have hk := (List.mem_filter.mp hl).2
    simp only [specKeepLead, decide_eq_true_eq] at hk
    simpa [bne_iff_ne] using hk.1
  · simp only [filter_active_businesses, leadLowFew]
    norm_num
    decide
  · simp only [filter_active_businesses, leadLowMany]
    norm_num
  · simp [filter_active_businesses, leadClosed]

set_option maxHeartbeats 1600000 in
/-- C7: the scorer is the additive six-component spec formula (for the
non-negative ratings the API produces), and the spec's perfect lead scores
exactly 100. -/
theorem c7_scorer :
    (∀ l : Lead, 0 ≤ l.rating → scoreLead l = specScore l)
    ∧ scoreLead leadScore100 = 100 := by
  constructor
  · intro l h
    by_cases hr : l.rating = 0
    · have hm : (15 : ℤ) ⊓ pyInt 0 = 0 := by norm_num [pyInt]
      simp only [scoreLead, specScore, hr, ne_eq, not_true_eq_false, if_false, zero_mul, hm]
      split_ifs <;> ring
    · simp only [scoreLead, specScore, ne_eq, hr, not_false_eq_true, if_true]
      split_ifs <;> ring
  · norm_num [scoreLead, leadScore100, pyInt, category_scores]
    simp

/-- C7 witness: the general component identity applied to the concrete
perfect-score lead. -/
theorem c7_scorer_witness : scoreLead leadScore100 = specScore leadScore100 :=
  c7_scorer.1 leadScore100 (by norm_num [leadScore100])

/-- C8 counterexample: the lead dict built by `_text_search` for a concrete
place carries no `enriched_website_scrape` key at all, so the claim that all
five provenance flags are initialized fails. -/
theorem c8_counterexample :
    List.lookup "enriched_website_scrape" (textSearchLead placeDance "dance_studio")
      = none := by decide

/-- C8 (amended): every lead built by the place-search stage initializes the
four provenance flags `enriched_google` (pre-set to true), `enriched_hunter`,
`enriched_apollo` and `enriched_pattern` (false); the fifth flag,
`enriched_website_scrape`, is absent from the initial dict (downstream reads
use `get` and treat the missing key as false). -/
theorem c8_amended (place : Place) (category : String) :
    List.lookup "enriched_google" (textSearchLead place category) = some (.b true)
    ∧ List.lookup "enriched_hunter" (textSearchLead place category) = some (.b false)
    ∧ List.lookup "enriched_apollo" (textSearchLead place category) = some (.b false)
    ∧ List.lookup "enriched_pattern" (textSearchLead place category) = some (.b false)
    ∧ List.lookup "enriched_website_scrape" (textSearchLead place category) = none :=
  ⟨rfl, rfl, rfl, rfl, rfl⟩

/-- C5: with a website whose extracted domain is nonempty and no contact
name, a positive mail-exchanger check makes pattern inference set the email
to `info@<domain>` (the head of the fixed candidate list) and the confidence
to `"inferred"`; a negative check leaves the lead untouched, and a check
that cannot run counts as receivable. -/
theorem c5_pattern_inference (lead : Lead) (nsOut : Option String) (d : String)
    (hweb : lead.website ≠ "") (hd : extractDomain lead.website = d)
    (hdne : d ≠ "") (hname : lead.contact_name = "") :
    (domain_has_mx nsOut = true →
      infer_email_pattern nsOut lead =
        { lead with email := "info@" ++ d, email_confidence := "inferred" })
    ∧ (domain_has_mx nsOut = false → infer_email_pattern nsOut lead = lead)
    ∧ domain_has_mx none = true := by
  refine ⟨?_, ?_, rfl⟩
  · intro hmx
    simp [infer_email_pattern, hweb, hd, hdne, hname, hmx]
  · intro hmx
    simp [infer_email_pattern, hweb, hd, hdne, hmx]

/-- C5 witness: for `acme.test` with a positive MX answer and no contact
name, the inferred email is `info@acme.test` with confidence `"inferred"`. -/
theorem c5_pattern_inference_witness :
    infer_email_pattern (some "acme.test mail exchanger = mail.acme.test") leadAcme
      = { leadAcme with email := "info@acme.test", email_confidence := "inferred" } :=
  (c5_pattern_inference leadAcme (some "acme.test mail exchanger = mail.acme.test")
    "acme.test" (by decide) (by decide) (by decide) rfl).1 (by decide)

/-- The scraper either leaves the lead's email alone or stores an element of
the filtered candidate list. -/
theorem scrape_email_cases (f : ScrapeFindings) (lead : Lead) :
    (scrape_website f lead).email = lead.email ∨
      (scrape_website f lead).email ∈ filter_emails f.emails (scrapeSchemed lead.website) := by
  unfold scrape_website
  by_cases hw : lead.website = ""
  · simp [hw]
  · rw [if_neg hw]
    dsimp only
    generalize filter_emails f.emails (scrapeSchemed lead.website) = good
    cases good with
    | nil =>
      left
      split_ifs <;> simp_all
    | cons g t =>
      right
      split_ifs <;> simp_all

/-- The `_filter_emails` loop computes exactly the three declarative buckets
over the normalized candidates. -/
theorem filterEmailsBuckets_eq (bd : String) (emails : List String) :
    filterEmailsBuckets bd emails =
      ((emails.map normEmail).filter (fun e =>
          keptEmail e && onBusinessDomain bd e && !(generic_locals.contains (emailLocal e))),
       (emails.map normEmail).filter (fun e =>
          keptEmail e && onBusinessDomain bd e && generic_locals.contains (emailLocal e)),
       (emails.map normEmail).filter (fun e =>
          keptEmail e && !(onBusinessDomain bd e) && free_providers.contains (emailDomain e))) := by
  induction emails with
  | nil => rfl
  | cons e0 rest ih =>
    simp only [filterEmailsBuckets, ih, List.map_cons, List.filter_cons, normEmail]
    by_cases h1 : ignore_patterns.any (fun p => pyIn p (pyStrip (pyLower e0))) = true
    · simp [h1, keptEmail]
    · by_cases h2 : (pyStrip (pyLower e0)).length < 5
      · simp [h1, h2, keptEmail]
      · by_cases h3 : emailDomain (pyStrip (pyLower e0)) = bd ∨
            emailDomain (pyStrip (pyLower e0)) = "www." ++ bd
        · by_cases h4 : emailLocal (pyStrip (pyLower e0)) ∈ generic_locals
          · simp [h1, h2, h3, h4, keptEmail, onBusinessDomain]
          · simp [h1, h2, h3, h4, keptEmail, onBusinessDomain]
        · by_cases h5 : emailDomain (pyStrip (pyLower e0)) ∈ free_providers
          · simp [h1, h2, h3, h5, keptEmail, onBusinessDomain]
          · simp [h1, h2, h3, h5, keptEmail, onBusinessDomain]

/-- `_filter_emails` is the concatenation of the three spec buckets in
priority order. -/
theorem filter_emails_eq (emails : List String) (website : String) :
    filter_emails emails website =
      rankBusiness emails website ++ rankGeneric emails website ++ rankFree emails website := by
  cases emails with
  | nil => rfl
  | cons e rest =>
    simp only [filter_emails, rankBusiness, rankGeneric, rankFree, filterEmailsBuckets_eq,
      List.isEmpty_cons, List.append_assoc]
    rfl

/-- C4: scraped candidates are ranked business-personal, then
business-generic, then free-provider (the spec buckets, in that order);
candidates matching the ignore list never survive; and on a concrete page
holding only a free-mail address and a business-generic address — in either
set-iteration order — the business-generic address is the one the scraper
stores on the lead. -/
theorem c4_email_ranking :
    (∀ emails website, filter_emails emails website =
        rankBusiness emails website ++ rankGeneric emails website ++ rankFree emails website)
    ∧ (∀ emails website, (filter_emails emails website).all
        (fun e => ignore_patterns.all (fun p => !(pyIn p e))))
    ∧ filter_emails ["director@gmail.com", "info@acme.test"] "https://acme.test"
        = ["info@acme.test", "director@gmail.com"]
    ∧ filter_emails ["info@acme.test", "director@gmail.com"] "https://acme.test"
        = ["info@acme.test", "director@gmail.com"]
    ∧ scrape_website { emails := ["director@gmail.com", "info@acme.test"] } leadAcme
        = { leadAcme with email := "info@acme.test" } := by
  refine ⟨filter_emails_eq, ?_, by decide, by decide, by decide⟩
  intro emails website
  simp only [List.all_eq_true]
  intro e he
  rw [filter_emails_eq] at he
  simp only [rankBusiness, rankGeneric, rankFree, List.mem_append, List.mem_filter,
    Bool.and_eq_true] at he
  have hk : keptEmail e = true := by
    rcases he with (⟨-, hc⟩ | ⟨-, hc⟩) | ⟨-, hc⟩ <;> exact hc.1.1
  simp only [keptEmail, Bool.and_eq_true, Bool.not_eq_true'] at hk
  intro p hp
  simp only [Bool.not_eq_true']
  simpa using (List.any_eq_false.mp hk.1) p hp

/-- C10: every email surviving `_filter_emails` sits on the lead's business
domain, on `www.` plus that domain, or on one of the five free consumer
providers — so a candidate on any other domain is never selected, even when
it is the only candidate — and the scraper either leaves the lead's email
unchanged or stores a member of the filtered list. -/
theorem c10_scrape_domains (emails : List String) (website : String) (e : String)
    (h : e ∈ filter_emails emails website) (f : ScrapeFindings) (lead : Lead) :
    (emailDomain e = extractDomain website ∨
      emailDomain e = "www." ++ extractDomain website ∨
      emailDomain e ∈ free_providers)
    ∧ ((scrape_website f lead).email = lead.email ∨
        (scrape_website f lead).email ∈ filter_emails f.emails (scrapeSchemed lead.website)) := by
  constructor
  · rw [filter_emails_eq] at h
    simp only [rankBusiness, rankGeneric, rankFree, List.mem_append, List.mem_filter,
      Bool.and_eq_true, onBusinessDomain, decide_eq_true_eq] at h
    rcases h with (⟨-, hc⟩ | ⟨-, hc⟩) | ⟨-, hc⟩
    · tauto
    · tauto
    · right; right
      simpa using hc.2
  · exact scrape_email_cases f lead

/-- C10 witness: the sole surviving candidate `info@acme.test` sits on the
business domain, and the scrape of `leadAcme` behaves as stated. -/
theorem c10_scrape_domains_witness :
    (emailDomain "info@acme.test" = extractDomain "https://acme.test" ∨
      emailDomain "info@acme.test" = "www." ++ extractDomain "https://acme.test" ∨
      emailDomain "info@acme.test" ∈ free_providers)
    ∧ ((scrape_website {} leadAcme).email = leadAcme.email ∨
        (scrape_website {} leadAcme).email ∈
          filter_emails (ScrapeFindings.emails {}) (scrapeSchemed leadAcme.website)) :=
  c10_scrape_domains ["info@acme.test"] "https://acme.test" "info@acme.test"
    (by decide) {} leadAcme

/-- A duplicate hit short-circuits `create_contact`: it returns the stored
identifier, changes nothing, and issues no POST. -/
theorem create_contact_duplicate_short_circuit (idx : CrmIndex) (resp : CreateResp)
    (dr : Bool) (lead : Lead) (h : check_duplicate idx lead ≠ "") :
    create_contact idx resp dr lead =
      (.duplicate lead.name (check_duplicate idx lead), idx, 0) := by
  unfold create_contact
  rw [if_pos h]

/-- C3: in a live batch, two leads with the same normalized business name —
the name absent from the CRM index — produce exactly one created outcome and
one duplicate outcome, the duplicate reporting precisely the identifier the
first creation received; and in general a duplicate-index hit short-circuits
creation (no POST, no index change). -/
theorem c3_live_upsert_idempotent (idx : CrmIndex) (l1 l2 : Lead) (rid msg : String)
    (resps : ℕ → CreateResp)
    (hnm : normName l2.name = normName l1.name)
    (hidx : check_duplicate idx l1 = "")
    (hresp : resps 0 = .api "SUCCESS" rid msg)
    (hrid : rid ≠ "") :
    (bulk_create_contacts resps false idx [l1, l2]).1.created = [.created l1.name rid]
    ∧ (bulk_create_contacts resps false idx [l1, l2]).1.duplicates
        = [.duplicate l2.name rid]
    ∧ (bulk_create_contacts resps false idx [l1, l2]).1.errors = []
    ∧ (bulk_create_contacts resps false idx [l1, l2]).1.dry_runs = []
    ∧ (∀ (idx0 : CrmIndex) (resp : CreateResp) (dr : Bool) (lead : Lead),
        check_duplicate idx0 lead ≠ "" →
          create_contact idx0 resp dr lead =
            (.duplicate lead.name (check_duplicate idx0 lead), idx0, 0)) := by
  have h1 : create_contact idx (resps 0) false l1 =
      (.created l1.name rid, (normName l1.name, rid) :: idx, 1) := by
    unfold create_contact
    rw [if_neg (by simpa using hidx), hresp]
    simp
  have h2 : create_contact ((normName l1.name, rid) :: idx) (resps 1) false l2 =
      (.duplicate l2.name rid, (normName l1.name, rid) :: idx, 0) := by
    have hdup : check_duplicate ((normName l1.name, rid) :: idx) l2 = rid := by
      simp [check_duplicate, List.lookup, hnm]
    unfold create_contact
    rw [hdup, if_pos hrid]
  refine ⟨?_, ?_, ?_, ?_,
    fun idx0 resp dr lead h => create_contact_duplicate_short_circuit idx0 resp dr lead h⟩
    <;> simp [bulk_create_contacts, bulkLoop, h1, h2, bucketize]

/-- C3 witness: concrete duplicate-named leads against an empty index with a
successful POST. -/
theorem c3_live_upsert_idempotent_witness :
    (bulk_create_contacts respsAlwaysB1 false [] [leadDupA, leadDupB]).1.created
      = [.created leadDupA.name "b1"]
    ∧ (bulk_create_contacts respsAlwaysB1 false [] [leadDupA, leadDupB]).1.duplicates
      = [.duplicate leadDupB.name "b1"] := by
  have h := c3_live_upsert_idempotent [] leadDupA leadDupB "b1" "ok" respsAlwaysB1
    (by decide) (by decide) rfl (by decide)
  exact ⟨h.1, h.2.1⟩

/-- C9: a dry-run creation never touches the duplicate index, so a dry-run
batch over two leads sharing a normalized name (absent from the CRM) yields
two dry-run outcomes, no duplicate outcome, and leaves the index unchanged —
unlike the live batch of C3. -/
theorem c9_dry_run_no_index_update (idx : CrmIndex) (l1 l2 : Lead)
    (resps : ℕ → CreateResp)
    (hnm : normName l2.name = normName l1.name)
    (hidx : check_duplicate idx l1 = "") :
    (bulk_create_contacts resps true idx [l1, l2]).1.dry_runs
        = [.dry l1.name (mkPayload l1), .dry l2.name (mkPayload l2)]
    ∧ (bulk_create_contacts resps true idx [l1, l2]).1.duplicates = []
    ∧ (bulk_create_contacts resps true idx [l1, l2]).1.created = []
    ∧ (bulk_create_contacts resps true idx [l1, l2]).1.errors = []
    ∧ (bulk_create_contacts resps true idx [l1, l2]).2 = idx
    ∧ (∀ (idx0 : CrmIndex) (resp : CreateResp) (lead : Lead),
        (create_contact idx0 resp true lead).2.1 = idx0) := by
  have hgen : ∀ (idx0 : CrmIndex) (resp : CreateResp) (lead : Lead),
      (create_contact idx0 resp true lead).2.1 = idx0 := by
    intro idx0 resp lead
    unfold create_contact
    dsimp only
    split_ifs <;> first | rfl | simp_all
  have hidx2 : check_duplicate idx l2 = "" := by
    unfold check_duplicate at hidx ⊢
    rw [hnm]
    exact hidx
  have h1 : create_contact idx (resps 0) true l1 =
      (.dry l1.name (mkPayload l1), idx, 0) := by
    unfold create_contact
    rw [if_neg (by simpa using hidx)]
    simp
  have h2 : create_contact idx (resps 1) true l2 =
      (.dry l2.name (mkPayload l2), idx, 0) := by
    unfold create_contact
    rw [if_neg (by simpa using hidx2)]
    simp
  refine ⟨?_, ?_, ?_, ?_, ?_, hgen⟩
    <;> simp [bulk_create_contacts, bulkLoop, h1, h2, bucketize]

/-- C9 witness: the dry-run batch over the concrete duplicate-named leads
reports no duplicate and leaves the (empty) index empty. -/
theorem c9_dry_run_no_index_update_witness :
    (bulk_create_contacts respsAlwaysB1 true [] [leadDupA, leadDupB]).1.duplicates = []
    ∧ (bulk_create_contacts respsAlwaysB1 true [] [leadDupA, leadDupB]).2 = [] := by
  have h := c9_dry_run_no_index_update [] leadDupA leadDupB respsAlwaysB1
    (by decide) (by decide)
  exact ⟨h.2.1, h.2.2.2.2.1⟩

/-! ### Cascade invariants (C1, C2) -/

/-- The strategy bodies never touch provenance flags: website scrape. -/
theorem stratFlag_scrape_website (s : Strat) (sc : ScrapeFindings) (l : Lead) :
    stratFlag s (scrape_website sc l) = stratFlag s l := by
  cases s <;>
  · unfold scrape_website
    dsimp only
    split_ifs <;> rfl

set_option maxHeartbeats 1600000 in
/-- The strategy bodies never touch provenance flags: Hunter search. -/
theorem stratFlag_hunter_search (s : Strat) (key : String) (r : HunterResp) (l : Lead) :
    stratFlag s (hunter_search key r l).1 = stratFlag s l := by
  cases s <;>
  · unfold hunter_search
    cases r with
    | transport => split_ifs <;> rfl
    | http ok emails pat =>
      dsimp only
      split_ifs <;> try rfl
      all_goals cases emails <;> dsimp only <;> first | rfl | (split_ifs <;> rfl)

/-- The strategy bodies never touch provenance flags: Apollo people search. -/
theorem stratFlag_apollo_people (s : Strat) (p : ApiResp ApolloPerson) (l : Lead) :
    stratFlag s (apollo_people_search p l).1 = stratFlag s l := by
  cases s <;>
  · unfold apollo_people_search
    cases p with
    | transport => rfl
    | http ok people =>
      dsimp only
      split_ifs <;> try rfl
      all_goals cases people <;> dsimp only <;> first | rfl | (split_ifs <;> rfl)

/-- The strategy bodies never touch provenance flags: Apollo search. -/
theorem stratFlag_apollo_search (s : Strat) (key : String) (o : ApiResp ApolloOrg)
    (p : ApiResp ApolloPerson) (l : Lead) :
    stratFlag s (apollo_search key o p l).1 = stratFlag s l := by
  unfold apollo_search
  split_ifs <;> try rfl
  cases o with
  | transport => rfl
  | http ok orgs =>
    dsimp only
    split_ifs <;> try rfl
    cases orgs with
    | nil => rfl
    | cons org orgs2 =>
      dsimp only
      split_ifs <;> simp only [stratFlag_apollo_people] <;> cases s <;>
        simp [stratFlag] <;> split_ifs <;> rfl

/-- The strategy bodies never touch provenance flags: pattern inference. -/
theorem stratFlag_infer (s : Strat) (ns : Option String) (l : Lead) :
    stratFlag s (infer_email_pattern ns l) = stratFlag s l := by
  cases s <;>
  · unfold infer_email_pattern
    dsimp only
    split_ifs <;> rfl

/-- Setting one provenance flag leaves the other strategies' flags alone. -/
theorem stratFlag_set_scrape (s : Strat) (l : Lead) (h : s ≠ .scrape) :
    stratFlag s { l with enriched_website_scrape := true } = stratFlag s l := by
  cases s <;> simp_all [stratFlag]

/-- Setting the Hunter flag leaves the other strategies' flags alone. -/
theorem stratFlag_set_hunter (s : Strat) (l : Lead) (h : s ≠ .hunter) :
    stratFlag s { l with enriched_hunter := true } = stratFlag s l := by
  cases s <;> simp_all [stratFlag]

/-- Setting the Apollo flag leaves the other strategies' flags alone. -/
theorem stratFlag_set_apollo (s : Strat) (l : Lead) (h : s ≠ .apollo) :
    stratFlag s { l with enriched_apollo := true } = stratFlag s l := by
  cases s <;> simp_all [stratFlag]

/-- Setting the pattern flag leaves the other strategies' flags alone. -/
theorem stratFlag_set_pattern (s : Strat) (l : Lead) (h : s ≠ .pattern) :
    stratFlag s { l with enriched_pattern := true } = stratFlag s l := by
  cases s <;> simp_all [stratFlag]

/-- The canonical strategy order has no repeats. -/
theorem stratOrder_nodup : stratOrder.Nodup := by decide

/-- In an in-order selection witnessing the invariant, the pending strategy
cannot already sit in the trace. -/
theorem not_mem_left_of_sublist {t : List Strat} {s : Strat} {avail : List Strat}
    (h : List.Sublist (t ++ s :: avail) stratOrder) : s ∉ t := by
  intro hs
  have hnd : (t ++ s :: avail).Nodup := List.Nodup.sublist h stratOrder_nodup
  rw [List.nodup_append] at hnd
  exact hnd.2.2 hs (List.mem_cons_self s avail)

/-- Passing a strategy without attempting it weakens the invariant. -/
theorem inv_weaken {orig : Lead} {s : Strat} {avail : List Strat} {f : Flow}
    (h : FlowInv orig (s :: avail) f) : FlowInv orig avail f := by
  obtain ⟨h1, h2, h3, h4, h5, h6, h7, h8⟩ := h
  refine ⟨?_, h2, h3, h4, h5, h6, h7, h8⟩
  exact (List.Sublist.append_left (List.sublist_cons_self s avail) _).trans h1

/-- Recording an attempt of the pending strategy preserves the invariant,
provided the new lead carries that strategy's flag, carries every other flag
unchanged, and the strategy's flag was still unset. -/
theorem inv_attempt {orig : Lead} {avail : List Strat} {f : Flow} {s : Strat} {l : Lead}
    {st : PipeState} {dh da : ℕ}
    (h : FlowInv orig (s :: avail) f) (hdone : f.done = false)
    (hflag : stratFlag s l = true)
    (hpres : ∀ s2 : Strat, s2 ≠ s → stratFlag s2 l = stratFlag s2 f.lead)
    (hguard : stratFlag s f.lead = false) :
    FlowInv orig avail (attempt s l st dh da f) := by
  obtain ⟨h1, h2, h3, h4, h5, h6, h7, h8⟩ := h
  have hs_not : s ∉ f.trace.map Prod.fst := not_mem_left_of_sublist h1
  refine ⟨?_, ?_, ?_, ?_, ?_, ?_, rfl, ?_⟩
  · simpa [attempt, List.map_append] using h1
  · intro p hp
    have hlead : (attempt s l st dh da f).lead = l := rfl
    rw [hlead]
    simp only [attempt, List.mem_append, List.mem_singleton] at hp
    rcases hp with hp | hp
    · by_cases hps : p.1 = s
      · rw [hps]
        exact hflag
      · rw [hpres p.1 hps]
        exact h2 p hp
    · rw [hp]
      exact hflag
  · intro p hp
    simp only [attempt, List.mem_append, List.mem_singleton] at hp
    rcases hp with hp | hp
    · exact h3 p hp
    · have horig : stratFlag s orig = false := by
        rw [← h4 s hs_not]
        exact hguard
      rw [hp]
      exact horig
  · intro s2 hs2
    simp only [attempt, List.map_append, List.mem_append] at hs2
    push_neg at hs2
    have hne : s2 ≠ s := by
      intro hcon
      exact hs2.2 (by simp [hcon])
    have hlead : (attempt s l st dh da f).lead = l := rfl
    rw [hlead, hpres s2 hne]
    exact h4 s2 hs2.1
  · intro p hp
    simp only [attempt, List.dropLast_concat] at hp
    exact h6 hdone p hp
  · intro hnew p hp
    simp only [attempt] at hnew hp
    rcases List.mem_append.mp hp with hp | hp
    · exact h6 hdone p hp
    · rw [List.mem_singleton.mp hp]
      exact hnew
  · intro hnew
    simp only [attempt] at hnew ⊢
    constructor
    · rw [List.getLastD_concat]
      exact hnew
    · simp

/-- Boolean helper: a condition that fails as a proposition is `false`. -/
theorem bool_eq_false {b : Bool} (h : ¬b = true) : b = false := by
  cases b <;> simp_all

/-- Step 1 preserves the invariant. -/
theorem inv_step1 {orig : Lead} {avail : List Strat} (sc : ScrapeFindings) {f : Flow}
    (h : FlowInv orig (.scrape :: avail) f) : FlowInv orig avail (step1 sc f) := by
  unfold step1
  by_cases hd : f.done = true
  · rw [if_pos hd]
    exact inv_weaken h
  · rw [if_neg hd]
    split_ifs with hg
    · refine inv_attempt h (bool_eq_false hd) rfl ?_ hg.2
      intro s2 hs2
      rw [stratFlag_set_scrape s2 _ hs2]
      exact stratFlag_scrape_website s2 sc f.lead
    · exact inv_weaken h

/-- Step 2 preserves the invariant. -/
theorem inv_step2 {orig : Lead} {avail : List Strat} (key : String) (hr : HunterResp)
    {f : Flow} (h : FlowInv orig (.hunter :: avail) f) :
    FlowInv orig avail (step2 key hr f) := by
  unfold step2
  by_cases hd : f.done = true
  · rw [if_pos hd]
    exact inv_weaken h
  · rw [if_neg hd]
    split_ifs with hg
    · refine inv_attempt h (bool_eq_false hd) rfl ?_ hg.2.1
      intro s2 hs2
      rw [stratFlag_set_hunter s2 _ hs2]
      exact stratFlag_hunter_search s2 key hr f.lead
    · exact inv_weaken h

/-- Step 3 preserves the invariant. -/
theorem inv_step3 {orig : Lead} {avail : List Strat} (key : String) (orsp : ApiResp ApolloOrg)
    (prsp : ApiResp ApolloPerson) {f : Flow} (h : FlowInv orig (.apollo :: avail) f) :
    FlowInv orig avail (step3 key orsp prsp f) := by
  unfold step3
  by_cases hd : f.done = true
  · rw [if_pos hd]
    exact inv_weaken h
  · rw [if_neg hd]
    split_ifs with hg
    · refine inv_attempt h (bool_eq_false hd) rfl ?_ hg.2
      intro s2 hs2
      rw [stratFlag_set_apollo s2 _ hs2]
      exact stratFlag_apollo_search s2 key orsp prsp f.lead
    · exact inv_weaken h

/-- Step 4 preserves the invariant. -/
theorem inv_step4 {orig : Lead} {avail : List Strat} (ns : Option String) {f : Flow}
    (h : FlowInv orig (.pattern :: avail) f) : FlowInv orig avail (step4 ns f) := by
  unfold step4
  by_cases hd : f.done = true
  · rw [if_pos hd]
    exact inv_weaken h
  · rw [if_neg hd]
    split_ifs with hg
    · refine inv_attempt h (bool_eq_false hd) rfl ?_ hg.2
      intro s2 hs2
      rw [stratFlag_set_pattern s2 _ hs2]
      exact stratFlag_infer s2 ns f.lead
    · exact inv_weaken h

/-- C1: for a lead without an email in skipping mode, the cascade attempts
strategies as an in-order selection of scrape → hunter → apollo → pattern
(each at most once); every attempted strategy leaves its provenance flag set
on the output lead; no strategy whose flag was already set is attempted; all
attempts before the last found no email; and if the lead ends with an email,
the last attempted strategy is the one that produced it. -/
theorem c1_cascade (cfg : Config) (env : LeadEnv) (st : PipeState) (lead : Lead)
    (h : lead.email = "") :
    ((enrichLead cfg env true st lead).trace.map Prod.fst).Sublist stratOrder
    ∧ (∀ p ∈ (enrichLead cfg env true st lead).trace,
        stratFlag p.1 (enrichLead cfg env true st lead).lead = true)
    ∧ (∀ p ∈ (enrichLead cfg env true st lead).trace, stratFlag p.1 lead = false)
    ∧ (∀ p ∈ (enrichLead cfg env true st lead).trace.dropLast, p.2 = false)
    ∧ ((enrichLead cfg env true st lead).lead.email ≠ "" →
        (enrichLead cfg env true st lead).trace ≠ []
        ∧ ((enrichLead cfg env true st lead).trace.getLastD (.scrape, false)).2 = true) := by
  have hout : enrichLead cfg env true st lead =
      step4 env.mx
        (step3 cfg.apollo_api_key env.apolloOrg env.apolloPeople
          (step2 cfg.hunter_api_key env.hunter
            (step1 env.scrape { lead := lead, st := st }))) := by
    unfold enrichLead
    rw [if_neg (by simp [h])]
  have inv0 : FlowInv lead stratOrder { lead := lead, st := st } := by
    refine ⟨by simpa using List.Sublist.refl stratOrder, by simp, by simp,
      fun s _ => rfl, by simp, by simp, by simp [h], by simp⟩
  have invF : FlowInv lead []
      (step4 env.mx
        (step3 cfg.apollo_api_key env.apolloOrg env.apolloPeople
          (step2 cfg.hunter_api_key env.hunter
            (step1 env.scrape { lead := lead, st := st })))) :=
    inv_step4 env.mx
      (inv_step3 cfg.apollo_api_key env.apolloOrg env.apolloPeople
        (inv_step2 cfg.hunter_api_key env.hunter
          (inv_step1 env.scrape inv0)))
  rw [hout]
  obtain ⟨h1, h2, h3, h4, h5, h6, h7, h8⟩ := invF
  refine ⟨by simpa using h1, h2, h3, h5, ?_⟩
  intro hne
  have hdone : (step4 env.mx
      (step3 cfg.apollo_api_key env.apolloOrg env.apolloPeople
        (step2 cfg.hunter_api_key env.hunter
          (step1 env.scrape { lead := lead, st := st })))).done = true := by
    rw [h7]
    simpa using hne
  exact ⟨(h8 hdone).2, (h8 hdone).1⟩

/-- C1 witness: the default oracle on `leadAcme` attempts scrape (which finds
nothing) and pattern inference (which, with an unrunnable MX check, infers an
email), exercising every clause. -/
theorem c1_cascade_witness :
    ((enrichLead {} {} true {} leadAcme).trace.map Prod.fst).Sublist stratOrder
    ∧ (∀ p ∈ (enrichLead {} {} true {} leadAcme).trace,
        stratFlag p.1 (enrichLead {} {} true {} leadAcme).lead = true)
    ∧ (∀ p ∈ (enrichLead {} {} true {} leadAcme).trace, stratFlag p.1 leadAcme = false)
    ∧ (∀ p ∈ (enrichLead {} {} true {} leadAcme).trace.dropLast, p.2 = false)
    ∧ ((enrichLead {} {} true {} leadAcme).lead.email ≠ "" →
        (enrichLead {} {} true {} leadAcme).trace ≠ []
        ∧ ((enrichLead {} {} true {} leadAcme).trace.getLastD (.scrape, false)).2 = true) :=
  c1_cascade {} {} {} leadAcme rfl

/-- Call accounting of `_hunter_search`: the counter increment never exceeds
the requests issued, matches them exactly when a response arrives, and is
zero on a transport failure. -/
theorem hunter_search_calls (key : String) (hr : HunterResp) (l : Lead) :
    (hunter_search key hr l).2.1 ≤ (hunter_search key hr l).2.2
    ∧ (hr ≠ .transport → (hunter_search key hr l).2.1 = (hunter_search key hr l).2.2)
    ∧ (hr = .transport → (hunter_search key hr l).2.1 = 0) := by
  unfold hunter_search
  by_cases h1 : l.website = "" ∨ key = ""
  · rw [if_pos h1]
    simp
  · rw [if_neg h1]
    by_cases h2 : extractDomain l.website = ""
    · rw [if_pos h2]
      simp
    · rw [if_neg h2]
      cases hr with
      | transport => simp
      | http ok emails pat => cases ok <;> simp

/-- Call accounting of `_apollo_people_search`: the increment matches the
request when a response arrives, and is skipped (while the request still
counts) on a transport failure. -/
theorem apollo_people_calls (p : ApiResp ApolloPerson) (l : Lead) :
    (apollo_people_search p l).2.1 ≤ (apollo_people_search p l).2.2
    ∧ (p ≠ .transport → (apollo_people_search p l).2.1 = (apollo_people_search p l).2.2)
    ∧ (p = .transport →
        (apollo_people_search p l).2.1 = 0 ∧ (apollo_people_search p l).2.2 = 1) := by
  unfold apollo_people_search
  cases p with
  | transport => simp
  | http ok people =>
    dsimp only
    cases ok <;> cases people <;> simp

/-- Call accounting of `_apollo_search` (both requests), exact in every
transport combination: with no transport failure the increments match the
requests; an org-search transport failure skips every increment; and when
the org search responds but the people search dies in transport, only the
org response increments (one increment against up to two requests). -/
theorem apollo_search_calls (key : String) (o : ApiResp ApolloOrg)
    (p : ApiResp ApolloPerson) (l : Lead) :
    (apollo_search key o p l).2.1 ≤ (apollo_search key o p l).2.2
    ∧ ((o ≠ .transport ∧ p ≠ .transport) →
        (apollo_search key o p l).2.1 = (apollo_search key o p l).2.2)
    ∧ (o = .transport → (apollo_search key o p l).2.1 = 0)
    ∧ ((o ≠ .transport ∧ p = .transport) →
        (apollo_search key o p l).2.1 = min (apollo_search key o p l).2.2 1) := by
  unfold apollo_search
  split_ifs
  · exact ⟨le_refl _, fun _ => rfl, fun _ => rfl, fun _ => by simp⟩
  · exact ⟨le_refl _, fun _ => rfl, fun _ => rfl, fun _ => by simp⟩
  cases o with
  | transport =>
    refine ⟨by simp, ?_, fun _ => rfl, ?_⟩
    · intro hc
      exact absurd rfl hc.1
    · intro hc
      exact absurd rfl hc.1
  | http ok orgs =>
    dsimp only
    split_ifs
    · simp
    · cases orgs with
      | nil => simp
      | cons org orgs2 =>
        dsimp only
        by_cases hid : org.id ≠ ""
        · rw [if_pos hid]
          refine ⟨Nat.add_le_add_left (apollo_people_calls _ _).1 1, ?_, ?_, ?_⟩
          · intro hc
            rw [(apollo_people_calls _ _).2.1 hc.2]
          · intro hc
            simp at hc
          · intro hc
            rcases hc with ⟨-, hp⟩
            subst hp
            simp [apollo_people_search]
        · rw [if_neg hid]
          simp

/-- Step 1 only changes the lead and possibly appends `scrape` to the trace. -/
theorem step1_effects (sc : ScrapeFindings) (f : Flow) :
    (step1 sc f).st = f.st ∧ (step1 sc f).hwire = f.hwire ∧ (step1 sc f).awire = f.awire
    ∧ ((step1 sc f).trace.map Prod.fst = f.trace.map Prod.fst ∨
        (step1 sc f).trace.map Prod.fst = f.trace.map Prod.fst ++ [Strat.scrape]) := by
  unfold step1
  split_ifs
  · exact ⟨rfl, rfl, rfl, Or.inl rfl⟩
  · exact ⟨rfl, rfl, rfl, Or.inr (by simp [attempt])⟩
  · exact ⟨rfl, rfl, rfl, Or.inl rfl⟩

/-- Step 4 only changes the lead and possibly appends `pattern` to the trace. -/
theorem step4_effects (ns : Option String) (f : Flow) :
    (step4 ns f).st = f.st ∧ (step4 ns f).hwire = f.hwire ∧ (step4 ns f).awire = f.awire
    ∧ ((step4 ns f).trace.map Prod.fst = f.trace.map Prod.fst ∨
        (step4 ns f).trace.map Prod.fst = f.trace.map Prod.fst ++ [Strat.pattern]) := by
  unfold step4
  split_ifs
  · exact ⟨rfl, rfl, rfl, Or.inl rfl⟩
  · exact ⟨rfl, rfl, rfl, Or.inr (by simp [attempt])⟩
  · exact ⟨rfl, rfl, rfl, Or.inl rfl⟩

/-- Step 2 leaves Apollo state alone and accounts Hunter calls per
`hunter_search_calls`. -/
theorem step2_effects (key : String) (hr : HunterResp) (f : Flow) :
    (step2 key hr f).st.apollo_calls = f.st.apollo_calls
    ∧ (step2 key hr f).awire = f.awire
    ∧ ((step2 key hr f).trace.map Prod.fst = f.trace.map Prod.fst ∨
        (step2 key hr f).trace.map Prod.fst = f.trace.map Prod.fst ++ [Strat.hunter])
    ∧ ∃ d w, (step2 key hr f).st.hunter_calls = f.st.hunter_calls + d
        ∧ (step2 key hr f).hwire = f.hwire + w
        ∧ d ≤ w
        ∧ (hr ≠ .transport → d = w)
        ∧ (hr = .transport → d = 0) := by
  unfold step2
  split_ifs
  · exact ⟨rfl, rfl, Or.inl rfl, 0, 0, rfl, rfl, le_refl 0, fun _ => rfl, fun _ => rfl⟩
  · exact ⟨rfl, rfl, Or.inr (by simp [attempt]),
      (hunter_search key hr f.lead).2.1, (hunter_search key hr f.lead).2.2, rfl, rfl,
      (hunter_search_calls key hr f.lead).1, (hunter_search_calls key hr f.lead).2.1,
      (hunter_search_calls key hr f.lead).2.2⟩
  · exact ⟨rfl, rfl, Or.inl rfl, 0, 0, rfl, rfl, le_refl 0, fun _ => rfl, fun _ => rfl⟩

/-- Step 3 leaves Hunter state alone and accounts Apollo calls per
`apollo_search_calls`. -/
theorem step3_effects (key : String) (o : ApiResp ApolloOrg) (p : ApiResp ApolloPerson)
    (f : Flow) :
    (step3 key o p f).st.hunter_calls = f.st.hunter_calls
    ∧ (step3 key o p f).hwire = f.hwire
    ∧ ((step3 key o p f).trace.map Prod.fst = f.trace.map Prod.fst ∨
        (step3 key o p f).trace.map Prod.fst = f.trace.map Prod.fst ++ [Strat.apollo])
    ∧ ∃ d w, (step3 key o p f).st.apollo_calls = f.st.apollo_calls + d
        ∧ (step3 key o p f).awire = f.awire + w
        ∧ d ≤ w
        ∧ ((o ≠ .transport ∧ p ≠ .transport) → d = w)
        ∧ (o = .transport → d = 0)
        ∧ ((o ≠ .transport ∧ p = .transport) → d = min w 1) := by
  unfold step3
  split_ifs
  · exact ⟨rfl, rfl, Or.inl rfl, 0, 0, rfl, rfl, le_refl 0, fun _ => rfl, fun _ => rfl,
      fun _ => by simp⟩
  · exact ⟨rfl, rfl, Or.inr (by simp [attempt]),
      (apollo_search key o p f.lead).2.1, (apollo_search key o p f.lead).2.2, rfl, rfl,
      (apollo_search_calls key o p f.lead).1, (apollo_search_calls key o p f.lead).2.1,
      (apollo_search_calls key o p f.lead).2.2.1, (apollo_search_calls key o p f.lead).2.2.2⟩
  · exact ⟨rfl, rfl, Or.inl rfl, 0, 0, rfl, rfl, le_refl 0, fun _ => rfl, fun _ => rfl,
      fun _ => by simp⟩

/-- Once the Hunter counter has reached 25, step 2 does nothing at all. -/
theorem step2_quota (key : String) (hr : HunterResp) (f : Flow)
    (h : 25 ≤ f.st.hunter_calls) : step2 key hr f = f := by
  unfold step2
  split_ifs with h1 h2
  · rfl
  · exact absurd h2.2.2.2 (by omega)
  · rfl

/-- A trace extension by a different strategy preserves non-membership. -/
theorem not_mem_extend {a b : Strat} {t u : List Strat}
    (h : u = t ∨ u = t ++ [b]) (ha : a ∉ t) (hab : a ≠ b) : a ∉ u := by
  rcases h with rfl | rfl <;> simp_all

/-- C2 counterexample: with a Hunter key configured and the single Hunter
request dying in transport, the pipeline issues one Hunter HTTP request but
the `_hunter_calls` counter stays at 0 — the increment sits after
`requests.get`, so a transport error skips it.  This refutes "each quota
counter is incremented exactly once per outbound call ... including calls
that end in a transport error". -/
theorem c2_counterexample :
    (enrichLead cfgHunterOnly envHunterTransport true {} leadScrapedAcme).hwire = 1
    ∧ (enrichLead cfgHunterOnly envHunterTransport true {} leadScrapedAcme).st.hunter_calls
        = 0 := by
  constructor <;> rfl

/-- C2 (amended): the Hunter strategy is never invoked once its counter has
reached the 25-call ceiling (no request, no increment, no trace entry); each
counter is incremented exactly once per outbound call that obtains an HTTP
response (success or error status) and not at all for calls that die in
transport — exactly, in every transport combination: a Hunter transport
failure leaves the Hunter counter unchanged, an Apollo org-search transport
failure leaves the Apollo counter unchanged, and an org response followed by
a people-search transport failure increments only for the org response
(`min awire 1`); counters never decrease and never outrun the requests
issued. -/
theorem c2_amended (cfg : Config) (env : LeadEnv) (skip : Bool) (st : PipeState)
    (lead : Lead) :
    (25 ≤ st.hunter_calls →
      (enrichLead cfg env skip st lead).hwire = 0
      ∧ (enrichLead cfg env skip st lead).st.hunter_calls = st.hunter_calls
      ∧ Strat.hunter ∉ (enrichLead cfg env skip st lead).trace.map Prod.fst)
    ∧ (env.hunter ≠ .transport →
        (enrichLead cfg env skip st lead).st.hunter_calls
          = st.hunter_calls + (enrichLead cfg env skip st lead).hwire)
    ∧ (env.hunter = .transport →
        (enrichLead cfg env skip st lead).st.hunter_calls = st.hunter_calls)
    ∧ st.hunter_calls ≤ (enrichLead cfg env skip st lead).st.hunter_calls
    ∧ (enrichLead cfg env skip st lead).st.hunter_calls
        ≤ st.hunter_calls + (enrichLead cfg env skip st lead).hwire
    ∧ ((env.apolloOrg ≠ ApiResp.transport ∧ env.apolloPeople ≠ ApiResp.transport) →
        (enrichLead cfg env skip st lead).st.apollo_calls
          = st.apollo_calls + (enrichLead cfg env skip st lead).awire)
    ∧ st.apollo_calls ≤ (enrichLead cfg env skip st lead).st.apollo_calls
    ∧ (enrichLead cfg env skip st lead).st.apollo_calls
        ≤ st.apollo_calls + (enrichLead cfg env skip st lead).awire
    ∧ (env.apolloOrg = ApiResp.transport →
        (enrichLead cfg env skip st lead).st.apollo_calls = st.apollo_calls)
    ∧ ((env.apolloOrg ≠ ApiResp.transport ∧ env.apolloPeople = ApiResp.transport) →
        (enrichLead cfg env skip st lead).st.apollo_calls
          = st.apollo_calls + min (enrichLead cfg env skip st lead).awire 1) := by
  unfold enrichLead
  split_ifs with hskip
  · refine ⟨fun _ => ⟨rfl, rfl, by simp⟩, fun _ => rfl, fun _ => rfl, le_refl _, ?_, ?_,
      le_refl _, ?_, fun _ => rfl, ?_⟩ <;> simp
  · obtain ⟨e1st, e1h, e1a, e1t⟩ := step1_effects env.scrape { lead := lead, st := st }
    obtain ⟨e2ap, e2aw, e2t, d2, w2, e2hc, e2hw, hdw2, hne2, htr2⟩ :=
      step2_effects cfg.hunter_api_key env.hunter
        (step1 env.scrape { lead := lead, st := st })
    obtain ⟨e3hc, e3hw, e3t, d3, w3, e3ac, e3aw, hdw3, hne3, htr3, hmix3⟩ :=
      step3_effects cfg.apollo_api_key env.apolloOrg env.apolloPeople
        (step2 cfg.hunter_api_key env.hunter
          (step1 env.scrape { lead := lead, st := st }))
    obtain ⟨e4st, e4h, e4a, e4t⟩ :=
      step4_effects env.mx
        (step3 cfg.apollo_api_key env.apolloOrg env.apolloPeople
          (step2 cfg.hunter_api_key env.hunter
            (step1 env.scrape { lead := lead, st := st })))
    have hst0 : ({ lead := lead, st := st } : Flow).st = st := rfl
    have hhc : (step4 env.mx
        (step3 cfg.apollo_api_key env.apolloOrg env.apolloPeople
          (step2 cfg.hunter_api_key env.hunter
            (step1 env.scrape { lead := lead, st := st })))).st.hunter_calls
        = st.hunter_calls + d2 := by
      rw [e4st, e3hc, e2hc, e1st, hst0]
    have hhw : (step4 env.mx
        (step3 cfg.apollo_api_key env.apolloOrg env.apolloPeople
          (step2 cfg.hunter_api_key env.hunter
            (step1 env.scrape { lead := lead, st := st })))).hwire = w2 := by
      rw [e4h, e3hw, e2hw, e1h]
      simp
    have hac : (step4 env.mx
        (step3 cfg.apollo_api_key env.apolloOrg env.apolloPeople
          (step2 cfg.hunter_api_key env.hunter
            (step1 env.scrape { lead := lead, st := st })))).st.apollo_calls
        = st.apollo_calls + d3 := by
      rw [e4st, e3ac, e2ap, e1st, hst0]
    have haw : (step4 env.mx
        (step3 cfg.apollo_api_key env.apolloOrg env.apolloPeople
          (step2 cfg.hunter_api_key env.hunter
            (step1 env.scrape { lead := lead, st := st })))).awire = w3 := by
      rw [e4a, e3aw, e2aw, e1a]
      simp
    refine ⟨?_, ?_, ?_, ?_, ?_, ?_, ?_, ?_, ?_, ?_⟩
    · intro h25
      have hq : step2 cfg.hunter_api_key env.hunter
          (step1 env.scrape { lead := lead, st := st })
          = step1 env.scrape { lead := lead, st := st } :=
        step2_quota _ _ _ (by rw [e1st, hst0]; exact h25)
      rw [hq] at e2hc e2hw e2t e3t e4t
      have hd2 : d2 = 0 := by omega
      have hw2 : w2 = 0 := by
        have := e2hw
        omega
      refine ⟨by rw [hhw, hw2], by rw [hhc, hd2]; omega, ?_⟩
      rw [hq]
      have m1 : Strat.hunter ∉ (step1 env.scrape
          ({ lead := lead, st := st } : Flow)).trace.map Prod.fst :=
        not_mem_extend e1t (by simp) (show Strat.hunter ≠ Strat.scrape by decide)
      have m3 : Strat.hunter ∉ (step3 cfg.apollo_api_key env.apolloOrg env.apolloPeople
          (step1 env.scrape { lead := lead, st := st })).trace.map Prod.fst :=
        not_mem_extend e3t m1 (show Strat.hunter ≠ Strat.apollo by decide)
      exact not_mem_extend e4t m3 (show Strat.hunter ≠ Strat.pattern by decide)
    · intro hh
      rw [hhc, hhw, hne2 hh]
    · intro hh
      rw [hhc, htr2 hh]
      omega
    · omega
    · rw [hhc, hhw]
      omega
    · intro hap
      rw [hac, haw, hne3 hap]
    · omega
    · rw [hac, haw]
      omega
    · intro ho
      rw [hac, htr3 ho]
      omega
    · intro hmx
      rw [hac, haw, hmix3 hmx]

/-- C2 witness: the amended accounting applied at the counterexample input —
a transport-errored Hunter call leaves the Hunter counter unchanged, and the
(transport-errored) Apollo org search leaves the Apollo counter unchanged. -/
theorem c2_amended_witness :
    (enrichLead cfgHunterOnly envHunterTransport true {} leadScrapedAcme).st.hunter_calls
      = PipeState.hunter_calls {}
    ∧ (enrichLead cfgHunterOnly envHunterTransport true {} leadScrapedAcme).st.apollo_calls
      = PipeState.apollo_calls {} :=
  ⟨(c2_amended cfgHunterOnly envHunterTransport true {} leadScrapedAcme).2.2.1 rfl,
    (c2_amended cfgHunterOnly envHunterTransport true {} leadScrapedAcme).2.2.2.2.2.2.2.2.1
      rfl⟩

end SailApp
